import Mathlib

/-!
# Verification of the DuckBuck backend security core

Shallow embedding of the two stateful security components of the DuckBuck
backend:

* the IP-based abuse tracker (`failedRequestTracker` in
  `src/middlewares/security.middleware.js`): a per-address log of failure
  timestamps with a sliding window, a permanent blacklist, and a periodic
  cleanup;
* the Firebase authentication middleware (`firebase-auth.middleware.js`,
  whose full source is included in the repository README): a revocation
  set with clear-on-overflow, a verdict cache keyed by raw token with
  expiry-based hits, and an error-code classification of upstream
  failures.

JS `Set`s of strings are modelled as lists (well-formed states are
duplicate-free); JS `Map`s are modelled as insertion-ordered association
lists with in-place update on existing keys, matching `Map.set` semantics.
Timestamps in the tracker are epoch milliseconds (`Int`, as JS numbers can
be subtracted freely); token expiries are epoch seconds (`Nat`).
The upstream verifier (`admin.auth().verifyIdToken`) is an external
collaborator and enters the model as a function parameter; the 1% random
sweep roll (`Math.random() < 0.01`) enters as a boolean parameter.
-/

namespace DuckBuck

/-! ## Shared JS collection operations -/

/-- `Set.add`: JS sets ignore an element that is already present and
append a new element at the end of the insertion order. -/
def setAdd (s : List String) (x : String) : List String :=
  if x ∈ s then s else s ++ [x]

/-! ## Abuse tracker (`security.middleware.js`) -/

/-- State of `failedRequestTracker`: `ipLog` maps a source address to its
failure timestamps (epoch ms), `blacklist` is the permanent block set. -/
structure TrackerState where
  ipLog : List (String × List Int)
  blacklist : List String
deriving Repr, DecidableEq

/-- `Map.set` for the ip log: update in place when the key exists,
append at the end otherwise. -/
def mapSetIp (m : List (String × List Int)) (k : String) (v : List Int) :
    List (String × List Int) :=
  if m.any (fun kv => kv.1 == k) then
    m.map (fun kv => if kv.1 == k then (k, v) else kv)
  else
    m ++ [(k, v)]

/-- The sliding-window test `(now - time) < window` from
`recordFailure` and `cleanup`. -/
def inWindow (window now t : Int) : Bool :=
  now - t < window

/-- `failedRequestTracker.recordFailure(ip)`: append `now` to the
address's attempt list, drop timestamps outside the trailing window, and
add the address to the blacklist when the in-window count exceeds the
threshold. `threshold` and `window` are the environment-configured values
(defaults 100 and 3600000 ms). -/
def recordFailure (threshold : Nat) (window now : Int) (st : TrackerState)
    (ip : String) : TrackerState :=
  let attempts := ((st.ipLog.lookup ip).getD []) ++ [now]
  let recentAttempts := attempts.filter (fun t => inWindow window now t)
  { ipLog := mapSetIp st.ipLog ip recentAttempts
    blacklist :=
      if recentAttempts.length > threshold then setAdd st.blacklist ip
      else st.blacklist }

/-- `failedRequestTracker.isBlacklisted(ip)`. -/
def isBlacklisted (st : TrackerState) (ip : String) : Bool :=
  st.blacklist.contains ip

/-- `failedRequestTracker.cleanup()`: for every tracked address drop the
timestamps outside the window, deleting the record entirely when nothing
remains. The blacklist is not touched by this function. -/
def cleanup (window now : Int) (st : TrackerState) : TrackerState :=
  { ipLog := st.ipLog.filterMap (fun kv =>
      let recentAttempts := kv.2.filter (fun t => inWindow window now t)
      if recentAttempts.length = 0 then none
      else some (kv.1, recentAttempts))
    blacklist := st.blacklist }

/-- The per-entry effect of `cleanup` on the ip log, as a standalone
function: filter each attempt list with `p`, drop entries left empty. -/
def prunedLog (p : Int → Bool) (m : List (String × List Int)) :
    List (String × List Int) :=
  m.filterMap (fun kv =>
    if (kv.2.filter p).length = 0 then none
    else some (kv.1, kv.2.filter p))

/-- The operations a client of the tracker can interleave (the read-only
`isBlacklisted` does not change state and needs no constructor). -/
inductive TrackerOp where
  | record (ip : String) (now : Int)
  | clean (now : Int)
deriving Repr, DecidableEq

/-- Apply one tracker operation. -/
def applyOp (threshold : Nat) (window : Int) (st : TrackerState) :
    TrackerOp → TrackerState
  | .record ip now => recordFailure threshold window now st ip
  | .clean now => cleanup window now st

/-- Apply a sequence of tracker operations, oldest first. -/
def applyOps (threshold : Nat) (window : Int) (st : TrackerState)
    (ops : List TrackerOp) : TrackerState :=
  ops.foldl (applyOp threshold window) st

/-- The attempt log of one address (empty when untracked): the view of
the tracker state the sliding-window reasoning is about. -/
def logA (A : String) (st : TrackerState) : List Int :=
  (st.ipLog.lookup A).getD []

/-! ## Firebase auth middleware (`firebase-auth.middleware.js`) -/

/-- The decoded token returned by the upstream verifier: the fields the
middleware reads (`uid` for logging, `exp` for cache control). `exp` is
`Option Nat` because a decoded token need not carry an `exp` claim; the
code tests it for JS truthiness before caching. -/
structure DecodedToken where
  uid : String
  exp : Option Nat
deriving Repr, DecidableEq

/-- JS truthiness of `decodedToken.exp`: absent and `0` are falsy. -/
def expTruthy : Option Nat → Bool
  | none => false
  | some e => e != 0

/-- The cache-hit comparison `cached.exp > now`: in JS a comparison with
`undefined` is false. -/
def expGtNow : Option Nat → Nat → Bool
  | none, _ => false
  | some e, now => now < e

/-- The sweep comparison `value.exp <= nowSeconds`: false when `exp` is
absent. -/
def expLeNow : Option Nat → Nat → Bool
  | none, _ => false
  | some e, now => e ≤ now

/-- `isTokenRevoked(token)`: membership in the `revokedTokens` set. -/
def isTokenRevoked (revokedTokens : List String) (token : String) : Bool :=
  revokedTokens.contains token

/-- `revokeToken(token)`: add the token to the set, then clear the whole
set when its size exceeds 1000. -/
def revokeToken (revokedTokens : List String) (token : String) :
    List String :=
  if (setAdd revokedTokens token).length > 1000 then []
  else setAdd revokedTokens token

/-- `Map.set` for the validated-token cache. -/
def mapSetTok (m : List (String × DecodedToken)) (k : String)
    (v : DecodedToken) : List (String × DecodedToken) :=
  if m.any (fun kv => kv.1 == k) then
    m.map (fun kv => if kv.1 == k then (k, v) else kv)
  else
    m ++ [(k, v)]

/-- The occasional cache sweep: delete every entry with
`value.exp <= nowSeconds`. -/
def sweepValidated (now : Nat) (m : List (String × DecodedToken)) :
    List (String × DecodedToken) :=
  m.filter (fun kv => !(expLeNow kv.2.exp now))

/-- Middleware state: the module-level `revokedTokens` set and
`validatedTokens` cache. -/
structure AuthState where
  revokedTokens : List String
  validatedTokens : List (String × DecodedToken)
deriving Repr, DecidableEq

/-- Outcome of the upstream `verifyIdToken` call: a decoded token, or a
thrown error carrying an optional `error.code` string. -/
inductive UpstreamOutcome where
  | success (d : DecodedToken)
  | failure (code : Option String)
deriving Repr, DecidableEq

/-- What the middleware does with the response: `ok d` stands for setting
`req.user = d` and calling `next()`; `rejected status message` stands for
`res.status(status).json({success: false, message})`. -/
inductive VerifyResult where
  | ok (d : DecodedToken)
  | rejected (status : Nat) (message : String)
deriving Repr, DecidableEq

/-- Result of one middleware run: the response, the new module state, and
the number of upstream verification calls made (0 or 1). -/
structure VerifyOutcome where
  result : VerifyResult
  state : AuthState
  upstreamCalls : Nat
deriving Repr, DecidableEq

/-- The `catch` block: switch on the Firebase `error.code`. The
`auth/id-token-revoked` case also adds the token to the local revocation
set; every unrecognised or absent code falls to the default
`403 Access Denied`. -/
def handleAuthError (code : Option String) (idToken : String)
    (st : AuthState) : VerifyResult × AuthState :=
  if code = some "auth/id-token-expired" then
    (.rejected 401 "Unauthorized: Authentication expired", st)
  else if code = some "auth/id-token-revoked" then
    (.rejected 401 "Unauthorized: Authentication revoked",
     { st with revokedTokens := revokeToken st.revokedTokens idToken })
  else if code = some "auth/argument-error" then
    (.rejected 400 "Bad Request: Invalid authentication format", st)
  else if code = some "auth/invalid-id-token" then
    (.rejected 401 "Unauthorized: Invalid authentication", st)
  else
    (.rejected 403 "Access Denied", st)

/-- The cache-miss continuation of the middleware: call upstream; on
success cache the verdict when `decodedToken.exp` is truthy and run the
optional sweep; on failure run the `catch` block. -/
def verifyViaUpstream (sweepRoll : Bool)
    (upstream : String → UpstreamOutcome) (now : Nat) (st : AuthState)
    (idToken : String) : VerifyOutcome :=
  match upstream idToken with
  | .success d =>
    let vt1 :=
      if expTruthy d.exp then mapSetTok st.validatedTokens idToken d
      else st.validatedTokens
    let vt2 := if sweepRoll then sweepValidated now vt1 else vt1
    ⟨.ok d, { st with validatedTokens := vt2 }, 1⟩
  | .failure code =>
    let rs := handleAuthError code idToken st
    ⟨rs.1, rs.2, 1⟩

/-- The condition `cached && cached.exp > now` of the cache lookup. -/
def cacheHit (vt : List (String × DecodedToken)) (idToken : String)
    (now : Nat) : Bool :=
  match vt.lookup idToken with
  | some cached => expGtNow cached.exp now
  | none => false

/-- `firebaseAuthMiddleware`, from the extracted bearer token onward:
the `firebaseInitialized` guard, the empty-token guard, the length band,
the revocation check, the cache lookup, the upstream call with caching,
the optional sweep, and the error classification. `sweepRoll` is the
outcome of `Math.random() < 0.01`; `now` is `Date.now()/1000` in epoch
seconds. -/
def firebaseAuthVerify (firebaseInitialized : Bool) (sweepRoll : Bool)
    (upstream : String → UpstreamOutcome) (now : Nat) (st : AuthState)
    (idToken : String) : VerifyOutcome :=
  if !firebaseInitialized then
    ⟨.rejected 500 "Authentication service unavailable", st, 0⟩
  else if idToken.length = 0 then
    ⟨.rejected 401 "Unauthorized: Invalid authentication format", st, 0⟩
  else if idToken.length < 50 ∨ idToken.length > 4096 then
    ⟨.rejected 401 "Unauthorized: Invalid token format", st, 0⟩
  else if isTokenRevoked st.revokedTokens idToken then
    ⟨.rejected 401 "Unauthorized: Token has been revoked", st, 0⟩
  else
    match st.validatedTokens.lookup idToken with
    | some cached =>
      if expGtNow cached.exp now then
        let vt :=
          if sweepRoll then sweepValidated now st.validatedTokens
          else st.validatedTokens
        ⟨.ok cached, { st with validatedTokens := vt }, 0⟩
      else
        verifyViaUpstream sweepRoll upstream now st idToken
    | none => verifyViaUpstream sweepRoll upstream now st idToken

/-! ## Concrete inputs used by witnesses and counterexamples -/

/-- A token of a chosen length (`'a'` repeated). -/
def tokOfLen (i : Nat) : String :=
  String.mk (List.replicate i 'a')

/-- A revocation-set state holding exactly 1000 distinct tokens (the
tokens of lengths 1 through 1000). -/
def bigRevokedState : List String :=
  (List.range 1000).map (fun i => tokOfLen (i + 1))

/-- A well-formed 60-character bearer token (inside the 50..4096 band). -/
def tok60 : String :=
  String.mk (List.replicate 60 'x')

/-- The spec's abuse scenario: one address with 101 failures recorded at
time 0, all inside the default 1-hour window, and an empty block set. -/
def c3State : TrackerState :=
  ⟨[("203.0.113.5", List.replicate 101 0)], []⟩

/-- Well-formedness of the verdict cache: every stored entry carries a
truthy `exp` claim (the property the insertion guard
`if (decodedToken.exp)` maintains). -/
def cacheWellFormed (vt : List (String × DecodedToken)) : Prop :=
  ∀ kv ∈ vt, expTruthy kv.2.exp = true

/-! ## Lemmas on the shared set operation -/

theorem mem_setAdd (s : List String) (t x : String) :
    x ∈ setAdd s t ↔ x ∈ s ∨ x = t := by
  unfold setAdd
  by_cases h : t ∈ s
  · simp only [if_pos h]
    constructor
    · exact fun hx => Or.inl hx
    · rintro (hx | rfl) <;> assumption
  · simp [if_neg h]

theorem self_mem_setAdd (s : List String) (t : String) : t ∈ setAdd s t := by
  rw [mem_setAdd]; exact Or.inr rfl

theorem setAdd_setAdd (s : List String) (t : String) :
    setAdd (setAdd s t) t = setAdd s t := by
  unfold setAdd
  by_cases h : t ∈ s
  · simp [h]
  · simp [h]

theorem length_setAdd_of_not_mem (s : List String) (t : String)
    (h : t ∉ s) : (setAdd s t).length = s.length + 1 := by
  simp [setAdd, h]

theorem nodup_setAdd (s : List String) (t : String) (h : s.Nodup) :
    (setAdd s t).Nodup := by
  unfold setAdd
  by_cases ht : t ∈ s
  · simpa [ht]
  · simp [ht, List.nodup_append, h]

/-! ## The concrete oversized revocation state -/

theorem tokOfLen_length (i : Nat) : (tokOfLen i).length = i := by
  simp [tokOfLen, String.length]

theorem tokOfLen_injective : Function.Injective tokOfLen := by
  intro i j h
  have := congrArg String.length h
  simpa [tokOfLen_length] using this

theorem bigRevokedState_nodup : bigRevokedState.Nodup := by
  refine List.Nodup.map ?_ (List.nodup_range 1000)
  intro i j h
  have := tokOfLen_injective h
  omega

theorem bigRevokedState_length : bigRevokedState.length = 1000 := by
  simp [bigRevokedState]

theorem empty_not_mem_bigRevokedState : "" ∉ bigRevokedState := by
  intro h
  rcases List.mem_map.mp h with ⟨i, _, hi⟩
  have := congrArg String.length hi
  simp [tokOfLen_length] at this

/-! ## Claims about the revocation set -/

/-- C8: `revoke(T)` on state `S` yields `S ∪ {T}` when the cardinality of
`S ∪ {T}` stays within the 1000-entry ceiling, and clears the whole set
(no partial eviction) exactly when that cardinality exceeds the ceiling.
Stated both structurally and extensionally (membership), together with
preservation of the duplicate-freeness that makes list length the set
cardinality. -/
theorem revoke_overflow_policy (s : List String) (t : String) :
    ((setAdd s t).length ≤ 1000 → revokeToken s t = setAdd s t) ∧
    (1000 < (setAdd s t).length → revokeToken s t = []) ∧
    (∀ x, x ∈ revokeToken s t ↔
      ((x ∈ s ∨ x = t) ∧ (setAdd s t).length ≤ 1000)) ∧
    (s.Nodup → (revokeToken s t).Nodup) := by
  unfold revokeToken
  by_cases h : (setAdd s t).length > 1000
  · refine ⟨fun hle => absurd h (by omega), fun _ => by simp [h], ?_, ?_⟩
    · intro x
      simp only [if_pos h, List.not_mem_nil]
      constructor
      · intro hx; exact absurd hx (by simp)
      · rintro ⟨-, hle⟩; omega
    · intro _; simp [h]
  · have hle : (setAdd s t).length ≤ 1000 := by omega
    refine ⟨fun _ => by simp [h], fun hgt => absurd hgt (by omega), ?_, ?_⟩
    · intro x
      simp only [if_neg h]
      rw [mem_setAdd]
      exact ⟨fun hx => ⟨hx, hle⟩, fun hx => hx.1⟩
    · intro hnd
      simp only [if_neg h]
      exact nodup_setAdd s t hnd

/-- Witness for C8 at a concrete input. -/
theorem revoke_overflow_policy_witness :
    revokeToken ["a"] "b" = setAdd ["a"] "b" :=
  (revoke_overflow_policy ["a"] "b").1 (by decide)

/-- C5 counterexample: at the overflow boundary, revoking the same token
twice is observably different from revoking it once. From a genuine
(duplicate-free) set state of 1000 tokens not containing `""`, one call
to `revoke("")` clears the set, so `isRevoked("")` is false; a second
call re-inserts the token, so `isRevoked("")` becomes true. -/
theorem revoke_twice_differs_at_overflow :
    bigRevokedState.Nodup ∧
    isTokenRevoked (revokeToken bigRevokedState "") "" = false ∧
    isTokenRevoked (revokeToken (revokeToken bigRevokedState "") "") ""
      = true ∧
    revokeToken (revokeToken bigRevokedState "") ""
      ≠ revokeToken bigRevokedState "" := by
  have hlen : (setAdd bigRevokedState "").length = 1001 := by
    rw [length_setAdd_of_not_mem _ _ empty_not_mem_bigRevokedState,
      bigRevokedState_length]
  have h1 : revokeToken bigRevokedState "" = [] := by
    unfold revokeToken
    rw [hlen]
    simp
  refine ⟨bigRevokedState_nodup, ?_, ?_, ?_⟩
  · rw [h1]; rfl
  · rw [h1]; rfl
  · rw [h1]; simp [revokeToken, setAdd]

/-- C5 amended: `revoke` is idempotent on every state where the insertion
does not push the set past the 1000-entry ceiling; when it does, a single
call leaves the set empty while a double call leaves exactly the singleton
of the revoked token. -/
theorem revoke_idempotent_below_ceiling (s : List String) (t : String) :
    ((setAdd s t).length ≤ 1000 →
      revokeToken (revokeToken s t) t = revokeToken s t) ∧
    (1000 < (setAdd s t).length →
      revokeToken s t = [] ∧
      revokeToken (revokeToken s t) t = [t]) := by
  constructor
  · intro hle
    have h1 : revokeToken s t = setAdd s t := by
      unfold revokeToken; simp [Nat.not_lt.mpr hle]
    rw [h1]
    unfold revokeToken
    rw [setAdd_setAdd]
    simp [Nat.not_lt.mpr hle]
  · intro hgt
    have h1 : revokeToken s t = [] := by
      unfold revokeToken; simp [hgt]
    refine ⟨h1, ?_⟩
    rw [h1]
    simp [revokeToken, setAdd]

/-- Witness for the amended C5 at a concrete input. -/
theorem revoke_idempotent_below_ceiling_witness :
    revokeToken (revokeToken [] "a") "a" = revokeToken [] "a" :=
  (revoke_idempotent_below_ceiling [] "a").1 (by decide)

/-! ## Helper lemmas about the middleware control flow -/

theorem isTokenRevoked_iff (s : List String) (t : String) :
    isTokenRevoked s t = true ↔ t ∈ s := by
  simp [isTokenRevoked]

theorem verifyViaUpstream_calls (sweepRoll : Bool)
    (upstream : String → UpstreamOutcome) (now : Nat) (st : AuthState)
    (idToken : String) :
    (verifyViaUpstream sweepRoll upstream now st idToken).upstreamCalls
      = 1 := by
  unfold verifyViaUpstream
  cases hu : upstream idToken with
  | success d => simp
  | failure code => simp

/-- Shared engine: with the service initialized, a token in the length
band, and the token present in the revocation set, the middleware rejects
with the revoked message, touches no state, and makes no upstream call. -/
theorem verify_rejects_revoked (sweepRoll : Bool)
    (upstream : String → UpstreamOutcome) (now : Nat) (st : AuthState)
    (idToken : String)
    (hlen : 50 ≤ idToken.length ∧ idToken.length ≤ 4096)
    (hrev : isTokenRevoked st.revokedTokens idToken = true) :
    firebaseAuthVerify true sweepRoll upstream now st idToken =
      ⟨.rejected 401 "Unauthorized: Token has been revoked", st, 0⟩ := by
  have hne : ¬ idToken.length = 0 := by omega
  have hband : ¬ (idToken.length < 50 ∨ idToken.length > 4096) := by omega
  simp [firebaseAuthVerify, hne, hband, hrev]

/-- Shared engine: with the guards passed and an unexpired cached
verdict, the middleware run is the cache hit (no upstream call, cache
only possibly swept). -/
theorem verify_hit (sweepRoll : Bool)
    (upstream : String → UpstreamOutcome) (now : Nat) (st : AuthState)
    (idToken : String) (cached : DecodedToken)
    (hlen : 50 ≤ idToken.length ∧ idToken.length ≤ 4096)
    (hrev : isTokenRevoked st.revokedTokens idToken = false)
    (hc : st.validatedTokens.lookup idToken = some cached)
    (hhit : expGtNow cached.exp now = true) :
    firebaseAuthVerify true sweepRoll upstream now st idToken =
      ⟨.ok cached,
       { st with validatedTokens :=
           if sweepRoll then sweepValidated now st.validatedTokens
           else st.validatedTokens }, 0⟩ := by
  have hne : ¬ idToken.length = 0 := by omega
  have hband : ¬ (idToken.length < 50 ∨ idToken.length > 4096) := by omega
  simp [firebaseAuthVerify, hne, hband, hrev, hc, hhit]

/-- Shared engine: with the guards passed and no fresh cache hit, the
middleware run is exactly the upstream continuation. -/
theorem verify_miss_goes_upstream (sweepRoll : Bool)
    (upstream : String → UpstreamOutcome) (now : Nat) (st : AuthState)
    (idToken : String)
    (hlen : 50 ≤ idToken.length ∧ idToken.length ≤ 4096)
    (hrev : isTokenRevoked st.revokedTokens idToken = false)
    (hmiss : cacheHit st.validatedTokens idToken now = false) :
    firebaseAuthVerify true sweepRoll upstream now st idToken =
      verifyViaUpstream sweepRoll upstream now st idToken := by
  have hne : ¬ idToken.length = 0 := by omega
  have hband : ¬ (idToken.length < 50 ∨ idToken.length > 4096) := by omega
  unfold cacheHit at hmiss
  cases hc : st.validatedTokens.lookup idToken with
  | none => simp [firebaseAuthVerify, hne, hband, hrev, hc]
  | some cached =>
    rw [hc] at hmiss
    simp only [] at hmiss
    simp [firebaseAuthVerify, hne, hband, hrev, hc, hmiss]

/-! ## C1: revocation wins over cache and upstream -/

/-- C1: for every token inside the accepted length band, if the token is
in the revocation set (that is, `revoke` ran and no overflow clear has
removed it since), then `verify` rejects with the revoked message with
the state untouched and zero upstream calls — regardless of the cache
contents (any `st.validatedTokens`, including an unexpired verdict for
this very token) and regardless of the upstream verifier's answer (any
`upstream` function). The revocation check precedes the cache lookup and
the upstream call. -/
theorem revoked_token_rejected_before_cache_and_upstream (sweepRoll : Bool)
    (upstream : String → UpstreamOutcome) (now : Nat) (st : AuthState)
    (idToken : String)
    (hlen : 50 ≤ idToken.length ∧ idToken.length ≤ 4096)
    (hrev : isTokenRevoked st.revokedTokens idToken = true) :
    firebaseAuthVerify true sweepRoll upstream now st idToken =
      ⟨.rejected 401 "Unauthorized: Token has been revoked", st, 0⟩ :=
  verify_rejects_revoked sweepRoll upstream now st idToken hlen hrev

/-- Witness for C1: a concrete revoked token that also has a live cached
verdict and an upstream that would accept it; the middleware still
rejects it as revoked without calling upstream. -/
theorem revoked_token_rejected_witness :
    firebaseAuthVerify true false
        (fun _ => .success ⟨"u", some 100⟩) 0
        ⟨[tok60], [(tok60, ⟨"u", some 100⟩)]⟩ tok60 =
      ⟨.rejected 401 "Unauthorized: Token has been revoked",
       ⟨[tok60], [(tok60, ⟨"u", some 100⟩)]⟩, 0⟩ :=
  revoked_token_rejected_before_cache_and_upstream false
    (fun _ => .success ⟨"u", some 100⟩) 0
    ⟨[tok60], [(tok60, ⟨"u", some 100⟩)]⟩ tok60
    (by constructor <;> decide) (by decide)

/-! ## C6: malformed tokens rejected before any lookup -/

/-- C6: a token outside the plausible length band (shorter than 50 or
longer than 4096 characters) is rejected with a pre-lookup shape
rejection: the state is returned untouched (revocation set and verdict
cache neither read into the outcome nor written) and zero upstream calls
are made, for every state and every upstream behaviour. The empty string
hits the dedicated empty-token guard, every other out-of-band length the
length guard; both are `Malformed`-class 401 rejections issued before any
lookup. -/
theorem malformed_token_rejected_without_lookup (sweepRoll : Bool)
    (upstream : String → UpstreamOutcome) (now : Nat) (st : AuthState)
    (idToken : String)
    (hmal : idToken.length < 50 ∨ 4096 < idToken.length) :
    (firebaseAuthVerify true sweepRoll upstream now st idToken).state = st ∧
    (firebaseAuthVerify true sweepRoll upstream now st
        idToken).upstreamCalls = 0 ∧
    ((firebaseAuthVerify true sweepRoll upstream now st idToken).result =
        .rejected 401 "Unauthorized: Invalid authentication format" ∨
     (firebaseAuthVerify true sweepRoll upstream now st idToken).result =
        .rejected 401 "Unauthorized: Invalid token format") := by
  by_cases h0 : idToken.length = 0
  · simp [firebaseAuthVerify, h0]
  · have hband : idToken.length < 50 ∨ idToken.length > 4096 := hmal
    simp [firebaseAuthVerify, h0, hband]

/-- Witness for C6: the spec's own scenario, token `"abc"`. -/
theorem malformed_token_rejected_witness :
    (firebaseAuthVerify true false (fun _ => .success ⟨"u", some 100⟩) 0
        ⟨[], []⟩ "abc").state = (⟨[], []⟩ : AuthState) ∧
    (firebaseAuthVerify true false (fun _ => .success ⟨"u", some 100⟩) 0
        ⟨[], []⟩ "abc").upstreamCalls = 0 ∧
    ((firebaseAuthVerify true false (fun _ => .success ⟨"u", some 100⟩) 0
        ⟨[], []⟩ "abc").result =
        .rejected 401 "Unauthorized: Invalid authentication format" ∨
     (firebaseAuthVerify true false (fun _ => .success ⟨"u", some 100⟩) 0
        ⟨[], []⟩ "abc").result =
        .rejected 401 "Unauthorized: Invalid token format") :=
  malformed_token_rejected_without_lookup false
    (fun _ => .success ⟨"u", some 100⟩) 0 ⟨[], []⟩ "abc" (by decide)

/-! ## C4: upstream unavailability is not surfaced distinctly -/

/-- C4 counterexample: an upstream verification failure with no
recognised Firebase error code — which is what an unreachable or
timed-out upstream produces (a thrown error without one of the four
`auth/...` codes, e.g. no code at all or `app/network-error`) — is mapped
by the middleware to the generic `403 Access Denied` rejection of the
`default` switch case, not to a distinct `serviceUnavailable` rejection.
This is the rejection the claim says unavailability is never mapped to. -/
theorem upstream_unavailable_maps_to_access_denied :
    (firebaseAuthVerify true false (fun _ => .failure none) 0 ⟨[], []⟩
        tok60).result = .rejected 403 "Access Denied" ∧
    (firebaseAuthVerify true false
        (fun _ => .failure (some "app/network-error")) 0 ⟨[], []⟩
        tok60).result = .rejected 403 "Access Denied" ∧
    (firebaseAuthVerify true false (fun _ => .failure none) 0 ⟨[], []⟩
        tok60).upstreamCalls = 1 := by
  refine ⟨?_, ?_, ?_⟩ <;> decide

/-- C4 amended: the middleware has no dedicated rejection for upstream
unavailability. Every upstream failure whose `error.code` is not one of
the four recognised `auth/...` codes — upstream-unreachable and timeout
errors included — falls to the default generic `403 Access Denied`
rejection. The only "service unavailable" response (`500`) is produced by
the `firebaseInitialized` pre-check, before any token processing, and
never by an upstream call failure. -/
theorem unrecognized_upstream_error_gets_generic_denial
    (code : Option String) (idToken : String) (st : AuthState)
    (h1 : code ≠ some "auth/id-token-expired")
    (h2 : code ≠ some "auth/id-token-revoked")
    (h3 : code ≠ some "auth/argument-error")
    (h4 : code ≠ some "auth/invalid-id-token") :
    handleAuthError code idToken st = (.rejected 403 "Access Denied", st) ∧
    (∀ (sweepRoll : Bool) (upstream : String → UpstreamOutcome) (now : Nat)
        (st2 : AuthState) (tk : String),
      firebaseAuthVerify false sweepRoll upstream now st2 tk =
        ⟨.rejected 500 "Authentication service unavailable", st2, 0⟩) := by
  constructor
  · simp [handleAuthError, h1, h2, h3, h4]
  · intro sweepRoll upstream now st2 tk
    rfl

/-- Witness for the amended C4 at a concrete unrecognised code. -/
theorem unrecognized_upstream_error_witness :
    handleAuthError (some "app/network-error") tok60 ⟨[], []⟩ =
      (.rejected 403 "Access Denied", ⟨[], []⟩) :=
  (unrecognized_upstream_error_gets_generic_denial
    (some "app/network-error") tok60 ⟨[], []⟩
    (by decide) (by decide) (by decide) (by decide)).1

/-! ## C2: cached verdicts are used exactly while unexpired -/

/-- C2: with the guards passed and a cached verdict present for the
token, the middleware returns the cached verdict with zero upstream calls
exactly when its expiry is still in the future (`now < e`); when the
expiry has passed (`e ≤ now`) the run is exactly the upstream
re-verification continuation (which always makes one upstream call), so
the stale verdict is never served from the cache. -/
theorem cached_verdict_returned_iff_unexpired (sweepRoll : Bool)
    (upstream : String → UpstreamOutcome) (now : Nat) (st : AuthState)
    (idToken : String) (cached : DecodedToken) (e : Nat)
    (hlen : 50 ≤ idToken.length ∧ idToken.length ≤ 4096)
    (hrev : isTokenRevoked st.revokedTokens idToken = false)
    (hcache : st.validatedTokens.lookup idToken = some cached)
    (hexp : cached.exp = some e) :
    (now < e →
      firebaseAuthVerify true sweepRoll upstream now st idToken =
        ⟨.ok cached,
         { st with validatedTokens :=
             if sweepRoll then sweepValidated now st.validatedTokens
             else st.validatedTokens }, 0⟩) ∧
    (e ≤ now →
      firebaseAuthVerify true sweepRoll upstream now st idToken =
        verifyViaUpstream sweepRoll upstream now st idToken ∧
      (verifyViaUpstream sweepRoll upstream now st
          idToken).upstreamCalls = 1) ∧
    ((firebaseAuthVerify true sweepRoll upstream now st
        idToken).upstreamCalls = 0 ↔ now < e) := by
  have hne : ¬ idToken.length = 0 := by omega
  have hband : ¬ (idToken.length < 50 ∨ idToken.length > 4096) := by omega
  have hmiss_of_ge : e ≤ now → cacheHit st.validatedTokens idToken now
      = false := by
    intro hge
    unfold cacheHit
    rw [hcache]
    simp [hexp, expGtNow]
    omega
  refine ⟨?_, ?_, ?_⟩
  · intro hlt
    simp [firebaseAuthVerify, hne, hband, hrev, hcache, hexp, expGtNow,
      hlt]
  · intro hge
    exact ⟨verify_miss_goes_upstream sweepRoll upstream now st idToken
        hlen hrev (hmiss_of_ge hge),
      verifyViaUpstream_calls sweepRoll upstream now st idToken⟩
  · by_cases hlt : now < e
    · simp [firebaseAuthVerify, hne, hband, hrev, hcache, hexp, expGtNow,
        hlt]
    · rw [verify_miss_goes_upstream sweepRoll upstream now st idToken
        hlen hrev (hmiss_of_ge (by omega))]
      rw [verifyViaUpstream_calls sweepRoll upstream now st idToken]
      simp [hlt]

/-- Witness for C2: a concrete unexpired cached verdict is served without
an upstream call, even though upstream would report failure. -/
theorem cached_verdict_returned_witness :
    firebaseAuthVerify true false (fun _ => .failure none) 0
        ⟨[], [(tok60, ⟨"u", some 100⟩)]⟩ tok60 =
      ⟨.ok ⟨"u", some 100⟩, ⟨[], [(tok60, ⟨"u", some 100⟩)]⟩, 0⟩ :=
  (cached_verdict_returned_iff_unexpired false (fun _ => .failure none) 0
    ⟨[], [(tok60, ⟨"u", some 100⟩)]⟩ tok60 ⟨"u", some 100⟩ 100
    (by constructor <;> decide) (by decide) (by decide) (by decide)).1
    (by decide)

/-! ## C9: upstream-reported revocation populates the local set -/

theorem handleAuthError_revoked (idToken : String) (st : AuthState) :
    handleAuthError (some "auth/id-token-revoked") idToken st =
      (.rejected 401 "Unauthorized: Authentication revoked",
       { st with revokedTokens :=
           revokeToken st.revokedTokens idToken }) := by
  unfold handleAuthError
  rw [if_neg (by decide), if_pos rfl]

/-- C9: when the guards pass, the cache gives no fresh hit, and the
upstream verifier throws `auth/id-token-revoked`, the middleware rejects
with the revoked message and, as a side effect of the rejection, runs
`revokeToken` on the token, adding it to the local revocation set; as
long as that insertion did not trigger the clear-on-overflow, every
subsequent `verify` of the same token (any sweep roll, any upstream, any
time) rejects as revoked with zero upstream calls. -/
theorem upstream_revoked_added_to_local_set (sweepRoll : Bool)
    (upstream : String → UpstreamOutcome) (now : Nat) (st : AuthState)
    (idToken : String)
    (hlen : 50 ≤ idToken.length ∧ idToken.length ≤ 4096)
    (hrev : isTokenRevoked st.revokedTokens idToken = false)
    (hmiss : cacheHit st.validatedTokens idToken now = false)
    (hup : upstream idToken = .failure (some "auth/id-token-revoked")) :
    firebaseAuthVerify true sweepRoll upstream now st idToken =
      ⟨.rejected 401 "Unauthorized: Authentication revoked",
       { st with revokedTokens := revokeToken st.revokedTokens idToken },
       1⟩ ∧
    ((setAdd st.revokedTokens idToken).length ≤ 1000 →
      ∀ (sweepRoll2 : Bool) (upstream2 : String → UpstreamOutcome)
        (now2 : Nat),
        firebaseAuthVerify true sweepRoll2 upstream2 now2
            { st with revokedTokens :=
                revokeToken st.revokedTokens idToken } idToken =
          ⟨.rejected 401 "Unauthorized: Token has been revoked",
           { st with revokedTokens :=
               revokeToken st.revokedTokens idToken }, 0⟩) := by
  constructor
  · rw [verify_miss_goes_upstream sweepRoll upstream now st idToken hlen
      hrev hmiss]
    unfold verifyViaUpstream
    rw [hup]
    simp [handleAuthError_revoked]
  · intro hle sweepRoll2 upstream2 now2
    apply verify_rejects_revoked
    · exact hlen
    · rw [isTokenRevoked_iff]
      have h1 : revokeToken st.revokedTokens idToken
          = setAdd st.revokedTokens idToken := by
        unfold revokeToken
        simp [Nat.not_lt.mpr hle]
      simp only [h1]
      exact self_mem_setAdd _ _

/-- Witness for C9: a concrete token the upstream reports revoked lands
in the local set, and the follow-up request is rejected locally. -/
theorem upstream_revoked_added_witness :
    firebaseAuthVerify true false
        (fun _ => .failure (some "auth/id-token-revoked")) 0 ⟨[], []⟩
        tok60 =
      ⟨.rejected 401 "Unauthorized: Authentication revoked",
       ⟨revokeToken [] tok60, []⟩, 1⟩ :=
  (upstream_revoked_added_to_local_set false
    (fun _ => .failure (some "auth/id-token-revoked")) 0 ⟨[], []⟩ tok60
    (by constructor <;> decide) (by decide) (by decide) rfl).1

/-! ## C10: every cached verdict carries a truthy expiry -/

theorem handleAuthError_validatedTokens (code : Option String)
    (idToken : String) (st : AuthState) :
    (handleAuthError code idToken st).2.validatedTokens
      = st.validatedTokens := by
  unfold handleAuthError
  repeat' split
  all_goals rfl

theorem cacheWellFormed_sweepValidated (now : Nat)
    (vt : List (String × DecodedToken)) (hwf : cacheWellFormed vt) :
    cacheWellFormed (sweepValidated now vt) := by
  intro kv hkv
  exact hwf kv (List.mem_filter.mp hkv).1

theorem cacheWellFormed_mapSetTok (vt : List (String × DecodedToken))
    (k : String) (v : DecodedToken) (hwf : cacheWellFormed vt)
    (hv : expTruthy v.exp = true) : cacheWellFormed (mapSetTok vt k v) := by
  unfold mapSetTok
  split
  · intro kv hkv
    rcases List.mem_map.mp hkv with ⟨kv0, hkv0, rfl⟩
    by_cases hk : kv0.1 == k
    · simp only [hk, if_pos]
      exact hv
    · rw [if_neg hk]
      exact hwf kv0 hkv0
  · intro kv hkv
    rcases List.mem_append.mp hkv with h | h
    · exact hwf kv h
    · rcases List.mem_singleton.mp h with rfl
      exact hv

theorem cacheWellFormed_verifyViaUpstream (sweepRoll : Bool)
    (upstream : String → UpstreamOutcome) (now : Nat) (st : AuthState)
    (idToken : String) (hwf : cacheWellFormed st.validatedTokens) :
    cacheWellFormed (verifyViaUpstream sweepRoll upstream now st
      idToken).state.validatedTokens := by
  unfold verifyViaUpstream
  cases hu : upstream idToken with
  | success d =>
    by_cases he : expTruthy d.exp = true <;> by_cases hs : sweepRoll = true
    · simp only [he, hs, if_pos]
      exact cacheWellFormed_sweepValidated now _
        (cacheWellFormed_mapSetTok _ _ _ hwf he)
    · simp only [he, if_pos, hs, if_neg]
      simpa [hs] using cacheWellFormed_mapSetTok st.validatedTokens
        idToken d hwf he
    · simp only [he, hs]
      simpa [he, hs] using cacheWellFormed_sweepValidated now _ hwf
    · simpa [he, hs] using hwf
  | failure code =>
    show cacheWellFormed (handleAuthError code idToken st).2.validatedTokens
    rw [handleAuthError_validatedTokens]
    exact hwf

/-- C10: the verdict-cache invariant. (a) If every cached entry has a
truthy `exp` claim, the same holds after any middleware run — the single
cache-writing site is guarded by `if (decodedToken.exp)`, and the sweep
only removes entries — so the cache-hit test `cached.exp > now` is always
evaluated on a present expiry. (b) A successful upstream verification
whose decoded verdict has no truthy `exp` is returned to the caller
(`ok d`) but never stored: the cache after the run is the old cache
(possibly swept), so the token is re-verified upstream next time. -/
theorem cache_entries_have_truthy_exp (inited sweepRoll : Bool)
    (upstream : String → UpstreamOutcome) (now : Nat) (st : AuthState)
    (idToken : String) (hwf : cacheWellFormed st.validatedTokens) :
    cacheWellFormed (firebaseAuthVerify inited sweepRoll upstream now st
      idToken).state.validatedTokens ∧
    (∀ d : DecodedToken, upstream idToken = .success d →
      expTruthy d.exp = false → inited = true →
      50 ≤ idToken.length → idToken.length ≤ 4096 →
      isTokenRevoked st.revokedTokens idToken = false →
      cacheHit st.validatedTokens idToken now = false →
      (firebaseAuthVerify inited sweepRoll upstream now st
          idToken).result = .ok d ∧
      (firebaseAuthVerify inited sweepRoll upstream now st
          idToken).state.validatedTokens =
        (if sweepRoll then sweepValidated now st.validatedTokens
         else st.validatedTokens)) := by
  constructor
  · cases inited with
    | false => simpa [firebaseAuthVerify] using hwf
    | true =>
      by_cases h0 : idToken.length = 0
      · simpa [firebaseAuthVerify, h0] using hwf
      by_cases hband : idToken.length < 50 ∨ idToken.length > 4096
      · simpa [firebaseAuthVerify, h0, hband] using hwf
      by_cases hrevb : isTokenRevoked st.revokedTokens idToken = true
      · simpa [firebaseAuthVerify, h0, hband, hrevb] using hwf
      · have hrev : isTokenRevoked st.revokedTokens idToken = false := by
          simpa using hrevb
        have hlen : 50 ≤ idToken.length ∧ idToken.length ≤ 4096 := by
          omega
        cases hc : st.validatedTokens.lookup idToken with
        | some cached =>
          by_cases hhit : expGtNow cached.exp now = true
          · rw [verify_hit sweepRoll upstream now st idToken cached hlen
              hrev hc hhit]
            by_cases hs : sweepRoll = true
            · simpa [hs] using cacheWellFormed_sweepValidated now _ hwf
            · simpa [hs] using hwf
          · have hmiss : cacheHit st.validatedTokens idToken now
                = false := by
              unfold cacheHit
              rw [hc]
              simpa using hhit
            rw [verify_miss_goes_upstream sweepRoll upstream now st
              idToken hlen hrev hmiss]
            exact cacheWellFormed_verifyViaUpstream sweepRoll upstream
              now st idToken hwf
        | none =>
          have hmiss : cacheHit st.validatedTokens idToken now
              = false := by
            unfold cacheHit
            rw [hc]
          rw [verify_miss_goes_upstream sweepRoll upstream now st idToken
            hlen hrev hmiss]
          exact cacheWellFormed_verifyViaUpstream sweepRoll upstream now
            st idToken hwf
  · intro d hu he hinit h1 h2 hrv hmis
    subst hinit
    rw [verify_miss_goes_upstream sweepRoll upstream now st idToken
      ⟨h1, h2⟩ hrv hmis]
    unfold verifyViaUpstream
    rw [hu]
    simp [he]

/-- Witness for C10: an upstream verdict with no `exp` claim is accepted
but leaves the cache empty. -/
theorem cache_entries_have_truthy_exp_witness :
    (firebaseAuthVerify true false
        (fun _ => .success ⟨"u", none⟩) 0 ⟨[], []⟩ tok60).result
      = .ok ⟨"u", none⟩ ∧
    (firebaseAuthVerify true false
        (fun _ => .success ⟨"u", none⟩) 0 ⟨[], []⟩
        tok60).state.validatedTokens = [] :=
  (cache_entries_have_truthy_exp true false
    (fun _ => .success ⟨"u", none⟩) 0 ⟨[], []⟩ tok60
    (by intro kv hkv; cases hkv)).2 ⟨"u", none⟩ rfl (by decide) rfl
    (by decide) (by decide) (by decide) (by decide)

/-! ## C3: what the tracker sweep actually does -/

theorem cleanup_ipLog (window now : Int) (st : TrackerState) :
    (cleanup window now st).ipLog
      = prunedLog (fun t => inWindow window now t) st.ipLog :=
  rfl

theorem lookup_eq_none_of_not_mem_keys (m : List (String × List Int))
    (k : String) (h : k ∉ m.map Prod.fst) : m.lookup k = none := by
  induction m with
  | nil => rfl
  | cons kv0 m ih =>
    rw [List.map_cons, List.mem_cons] at h
    push_neg at h
    have hne : (k == kv0.1) = false := by
      simpa using h.1
    obtain ⟨k0, a0⟩ := kv0
    simp only [List.lookup, hne]
    exact ih h.2

/-- Looking an address up after pruning: the address's attempt list is
filtered, and the record disappears exactly when the filter leaves
nothing (keys assumed duplicate-free, as in any JS `Map`). -/
theorem lookup_pruned (p : Int → Bool) (m : List (String × List Int))
    (ip : String) (hk : (m.map Prod.fst).Nodup) :
    (prunedLog p m).lookup ip
      = (m.lookup ip).bind (fun a =>
          if (a.filter p).length = 0 then none else some (a.filter p)) := by
  induction m with
  | nil => rfl
  | cons kv0 m ih =>
    obtain ⟨k0, a0⟩ := kv0
    rw [List.map_cons, List.nodup_cons] at hk
    obtain ⟨hk0, hk2⟩ := hk
    unfold prunedLog
    rw [List.filterMap_cons]
    simp only []
    by_cases hip : ip = k0
    · subst hip
      have hnone : m.lookup ip = none :=
        lookup_eq_none_of_not_mem_keys m ip hk0
      have hlk : List.lookup ip ((ip, a0) :: m) = some a0 := by
        simp [List.lookup]
      rw [hlk, Option.some_bind]
      by_cases hr : (a0.filter p).length = 0
      · rw [if_pos hr, if_pos hr]
        show (prunedLog p m).lookup ip = none
        rw [ih hk2, hnone]
        rfl
      · rw [if_neg hr, if_neg hr]
        simp [List.lookup]
    · have hne : (ip == k0) = false := by
        simpa using hip
      have hlk : List.lookup ip ((k0, a0) :: m) = List.lookup ip m := by
        simp [List.lookup, hne]
      rw [hlk]
      by_cases hr : (a0.filter p).length = 0
      · rw [if_pos hr]
        show (prunedLog p m).lookup ip = _
        exact ih hk2
      · rw [if_neg hr]
        show List.lookup ip ((k0, a0.filter p) :: prunedLog p m) = _
        simp only [List.lookup, hne]
        exact ih hk2

/-- C3 counterexample: the spec's own scenario state (101 in-window
failures for one address, threshold 100) refutes part (2) of the claim:
the in-window count after the sweep still exceeds the threshold, yet the
sweep has not moved the address into the block set — `cleanup` never
touches the blacklist; blocking happens only inside `recordFailure`. -/
theorem sweep_does_not_blacklist :
    (((c3State.ipLog.lookup "203.0.113.5").getD []).filter
        (fun t => inWindow 3600000 0 t)).length = 101 ∧
    100 < 101 ∧
    isBlacklisted (cleanup 3600000 0 c3State) "203.0.113.5" = false ∧
    (cleanup 3600000 0 c3State).blacklist = [] := by
  refine ⟨?_, by omega, ?_, ?_⟩ <;> decide

/-- C3 amended: the periodic sweep (1) discards from every tracked
address the attempt timestamps outside the trailing window and (3) drops
the record of every address left with no in-window attempts — but it
never moves any address into the permanent block set: the blacklist is
returned unchanged. (Blocking happens only in `recordFailure`.) -/
theorem sweep_prunes_and_deletes_but_preserves_blacklist
    (window now : Int) (st : TrackerState) (ip : String)
    (hk : (st.ipLog.map Prod.fst).Nodup) :
    (cleanup window now st).blacklist = st.blacklist ∧
    (cleanup window now st).ipLog.lookup ip =
      (st.ipLog.lookup ip).bind (fun a =>
        if (a.filter (fun t => inWindow window now t)).length = 0 then none
        else some (a.filter (fun t => inWindow window now t))) := by
  refine ⟨rfl, ?_⟩
  rw [cleanup_ipLog]
  exact lookup_pruned (fun t => inWindow window now t) st.ipLog ip hk

/-- Witness for the amended C3: one in-window and one stale timestamp;
the sweep keeps the former, drops the latter, and leaves the blacklist
alone. -/
theorem sweep_prunes_witness :
    (cleanup 5 0 ⟨[("a", [0, -10])], ["b"]⟩).blacklist = ["b"] ∧
    (cleanup 5 0 ⟨[("a", [0, -10])], ["b"]⟩).ipLog.lookup "a" =
      (([("a", [0, -10])] : List (String × List Int)).lookup "a").bind
        (fun a =>
          if (a.filter (fun t => inWindow 5 0 t)).length = 0 then none
          else some (a.filter (fun t => inWindow 5 0 t))) :=
  sweep_prunes_and_deletes_but_preserves_blacklist 5 0
    ⟨[("a", [0, -10])], ["b"]⟩ "a" (by decide)

/-! ## C7: blocking triggers at the threshold and is permanent -/

theorem contains_setAdd (l : List String) (x A : String)
    (h : l.contains A = true) : (setAdd l x).contains A = true := by
  have hm : A ∈ l := by simpa using h
  have : A ∈ setAdd l x := (mem_setAdd l x A).mpr (Or.inl hm)
  simpa using this

theorem lookup_append_self (m : List (String × List Int)) (k : String)
    (v : List Int) (h : ∀ kv ∈ m, (kv.1 == k) = false) :
    (m ++ [(k, v)]).lookup k = some v := by
  induction m with
  | nil => simp [List.lookup]
  | cons kv0 m ih =>
    obtain ⟨k0, a0⟩ := kv0
    have h0 : (k0 == k) = false := h (k0, a0) (List.mem_cons_self _ m)
    have hne : (k == k0) = false := by
      simp only [beq_eq_false_iff_ne] at h0 ⊢
      exact fun e => h0 e.symm
    rw [List.cons_append]
    simp only [List.lookup, hne]
    exact ih (fun kv hkv => h kv (List.mem_cons_of_mem _ hkv))

theorem lookup_map_self (m : List (String × List Int)) (k : String)
    (v : List Int) (h : m.any (fun kv => kv.1 == k) = true) :
    (m.map (fun kv => if kv.1 == k then (k, v) else kv)).lookup k
      = some v := by
  induction m with
  | nil => simp at h
  | cons kv0 m ih =>
    obtain ⟨k0, a0⟩ := kv0
    rw [List.map_cons]
    by_cases h0 : ((k0, a0).1 == k) = true
    · rw [if_pos h0]
      simp [List.lookup]
    · rw [if_neg h0]
      have hf : (k0 == k) = false := by
        cases hb : (k0 == k) with
        | false => rfl
        | true => exact absurd hb h0
      have hne : (k == k0) = false := by
        simp only [beq_eq_false_iff_ne] at hf ⊢
        exact fun e => hf e.symm
      simp only [List.lookup, hne]
      apply ih
      rw [List.any_cons] at h
      simpa [hf] using h

theorem lookup_mapSetIp_self (m : List (String × List Int)) (k : String)
    (v : List Int) : (mapSetIp m k v).lookup k = some v := by
  unfold mapSetIp
  by_cases h : m.any (fun kv => kv.1 == k) = true
  · rw [if_pos h]
    exact lookup_map_self m k v h
  · rw [if_neg h]
    apply lookup_append_self
    intro kv hkv
    cases hb : (kv.1 == k) with
    | false => rfl
    | true => exact absurd (List.any_eq_true.mpr ⟨kv, hkv, hb⟩) h

/-- The attempt log of `A` after `recordFailure(A)`: the old log with
`now` appended, filtered to the window around `now`. -/
theorem recordFailure_logA (threshold : Nat) (window now : Int)
    (st : TrackerState) (A : String) :
    logA A (recordFailure threshold window now st A)
      = (logA A st ++ [now]).filter (fun t => inWindow window now t) := by
  show ((mapSetIp st.ipLog A
      ((((st.ipLog.lookup A).getD []) ++ [now]).filter
        (fun t => inWindow window now t))).lookup A).getD []
    = (logA A st ++ [now]).filter (fun t => inWindow window now t)
  rw [lookup_mapSetIp_self]
  rfl

/-- The blacklist after `recordFailure`, isolated. -/
theorem recordFailure_blacklist (threshold : Nat) (window now : Int)
    (st : TrackerState) (ip : String) :
    (recordFailure threshold window now st ip).blacklist =
      if ((logA ip st ++ [now]).filter
          (fun t => inWindow window now t)).length > threshold
      then setAdd st.blacklist ip else st.blacklist :=
  rfl

theorem applyOps_nil (threshold : Nat) (window : Int) (st : TrackerState) :
    applyOps threshold window st [] = st :=
  rfl

theorem applyOps_cons (threshold : Nat) (window : Int) (st : TrackerState)
    (op : TrackerOp) (ops : List TrackerOp) :
    applyOps threshold window st (op :: ops)
      = applyOps threshold window (applyOp threshold window st op) ops :=
  rfl

theorem applyOps_append (threshold : Nat) (window : Int)
    (st : TrackerState) (l1 l2 : List TrackerOp) :
    applyOps threshold window st (l1 ++ l2)
      = applyOps threshold window (applyOps threshold window st l1) l2 := by
  unfold applyOps
  exact List.foldl_append _ _ _ _

/-- No single operation removes an address from the block set. -/
theorem isBlacklisted_op_mono (threshold : Nat) (window : Int)
    (st : TrackerState) (op : TrackerOp) (A : String)
    (h : isBlacklisted st A = true) :
    isBlacklisted (applyOp threshold window st op) A = true := by
  cases op with
  | record ip n =>
    unfold isBlacklisted
    rw [show applyOp threshold window st (TrackerOp.record ip n)
        = recordFailure threshold window n st ip from rfl]
    rw [recordFailure_blacklist]
    split
    · exact contains_setAdd _ _ _ h
    · exact h
  | clean n => exact h

/-- No sequence of operations removes an address from the block set. -/
theorem isBlacklisted_ops_mono (threshold : Nat) (window : Int)
    (A : String) :
    ∀ (ops : List TrackerOp) (st : TrackerState),
      isBlacklisted st A = true →
      isBlacklisted (applyOps threshold window st ops) A = true := by
  intro ops
  induction ops with
  | nil => exact fun st h => h
  | cons op ops ih =>
    intro st h
    rw [applyOps_cons]
    exact ih _ (isBlacklisted_op_mono threshold window st op A h)

/-- Core invariant for the trigger direction: timestamps already in the
log that stay within the window of every later call, together with the
recorded times themselves, survive the per-call re-filtering as a sublist
of the final log. -/
theorem records_keep_sublist (threshold : Nat) (window : Int)
    (hw : 0 < window) (A : String) :
    ∀ (ts : List Int) (st : TrackerState) (keep : List Int),
      List.Sublist keep (logA A st) →
      (∀ x ∈ keep, ∀ u ∈ ts, u - x < window) →
      List.Pairwise (fun a b => b - a < window) ts →
      List.Sublist (keep ++ ts)
        (logA A (applyOps threshold window st
          (ts.map (TrackerOp.record A)))) := by
  intro ts
  induction ts with
  | nil =>
    intro st keep hkeep _ _
    simpa using hkeep
  | cons t ts ih =>
    intro st keep hkeep hwin hp
    rw [List.map_cons, applyOps_cons]
    have hlog1 : logA A (applyOp threshold window st (TrackerOp.record A t))
        = (logA A st ++ [t]).filter (fun x => inWindow window t x) :=
      recordFailure_logA threshold window t st A
    have hall : ∀ x ∈ keep ++ [t], (inWindow window t x) = true := by
      intro x hx
      rcases List.mem_append.mp hx with hx | hx
      · have := hwin x hx t (List.mem_cons_self t ts)
        simpa [inWindow] using this
      · rcases List.mem_singleton.mp hx with rfl
        simp only [inWindow, decide_eq_true_eq]
        omega
    have hkeep1 : List.Sublist (keep ++ [t])
        (logA A (applyOp threshold window st (TrackerOp.record A t))) := by
      rw [hlog1]
      have e1 : (keep ++ [t]).filter (fun x => inWindow window t x)
          = keep ++ [t] := List.filter_eq_self.mpr hall
      have s1 : List.Sublist
          ((keep ++ [t]).filter (fun x => inWindow window t x))
          ((logA A st ++ [t]).filter (fun x => inWindow window t x)) :=
        List.Sublist.filter _ (hkeep.append (List.Sublist.refl [t]))
      rw [e1] at s1
      exact s1
    rw [List.pairwise_cons] at hp
    have hwin1 : ∀ x ∈ keep ++ [t], ∀ u ∈ ts, u - x < window := by
      intro x hx u hu
      rcases List.mem_append.mp hx with hx | hx
      · exact hwin x hx u (List.mem_cons_of_mem t hu)
      · rcases List.mem_singleton.mp hx with rfl
        exact hp.1 u hu
    have := ih (applyOp threshold window st (TrackerOp.record A t))
      (keep ++ [t]) hkeep1 hwin1 hp.2
    simpa [List.append_assoc] using this

/-- The trigger: more than `threshold` recorded failures of `A`, pairwise
inside the window, land `A` on the blacklist at the final call. -/
theorem blacklisted_after_threshold_calls (threshold : Nat) (window : Int)
    (hw : 0 < window) (A : String) (ts : List Int) (tl : Int)
    (st : TrackerState)
    (hp : List.Pairwise (fun a b => b - a < window) (ts ++ [tl]))
    (hlen : threshold < (ts ++ [tl]).length) :
    isBlacklisted (applyOps threshold window st
      ((ts ++ [tl]).map (TrackerOp.record A))) A = true := by
  rw [List.map_append, applyOps_append]
  rw [List.pairwise_append] at hp
  obtain ⟨hp1, hp2, hcross⟩ := hp
  have hsub : List.Sublist ts
      (logA A (applyOps threshold window st
        (ts.map (TrackerOp.record A)))) := by
    have := records_keep_sublist threshold window hw A ts st []
      (List.nil_sublist _) (by intro x hx; cases hx) hp1
    simpa using this
  rw [List.map_cons, List.map_nil, applyOps_cons, applyOps_nil]
  unfold isBlacklisted
  rw [show applyOp threshold window
      (applyOps threshold window st (ts.map (TrackerOp.record A)))
      (TrackerOp.record A tl)
      = recordFailure threshold window tl
        (applyOps threshold window st (ts.map (TrackerOp.record A))) A
      from rfl]
  rw [recordFailure_blacklist]
  have hallpass : ∀ x ∈ ts ++ [tl], (inWindow window tl x) = true := by
    intro x hx
    rcases List.mem_append.mp hx with hx | hx
    · have := hcross x hx tl (List.mem_singleton_self tl)
      simpa [inWindow] using this
    · rcases List.mem_singleton.mp hx with rfl
      simp only [inWindow, decide_eq_true_eq]
      omega
  have hsub2 : List.Sublist (ts ++ [tl])
      ((logA A (applyOps threshold window st (ts.map (TrackerOp.record A)))
        ++ [tl]).filter (fun t => inWindow window tl t)) := by
    have e1 : (ts ++ [tl]).filter (fun t => inWindow window tl t)
        = ts ++ [tl] := List.filter_eq_self.mpr hallpass
    have s1 := List.Sublist.filter (fun t => inWindow window tl t)
      (hsub.append (List.Sublist.refl [tl]))
    rw [e1] at s1
    exact s1
  have hlen2 : threshold <
      ((logA A (applyOps threshold window st (ts.map (TrackerOp.record A)))
        ++ [tl]).filter (fun t => inWindow window tl t)).length := by
    have h2 := hsub2.length_le
    omega
  rw [if_pos hlen2]
  have : A ∈ setAdd (applyOps threshold window st
      (ts.map (TrackerOp.record A))).blacklist A := self_mem_setAdd _ _
  simpa using this

/-- C7: once `recordFailure(A)` has run more than `threshold` times with
all those calls inside the trailing window of one another (times
`ts ++ [tl]`, each later call within `window` of each earlier one), the
address is blacklisted, and it stays blacklisted after any further
sequence of `recordFailure`/`cleanup` operations — no operation ever
removes an address from the block set. -/
theorem blacklist_triggered_and_permanent (threshold : Nat) (window : Int)
    (A : String) (ts : List Int) (tl : Int) (st : TrackerState)
    (ops : List TrackerOp) (hw : 0 < window)
    (hp : List.Pairwise (fun a b => b - a < window) (ts ++ [tl]))
    (hlen : threshold < (ts ++ [tl]).length) :
    isBlacklisted (applyOps threshold window st
      ((ts ++ [tl]).map (TrackerOp.record A))) A = true ∧
    isBlacklisted (applyOps threshold window
      (applyOps threshold window st ((ts ++ [tl]).map (TrackerOp.record A)))
      ops) A = true := by
  have h1 := blacklisted_after_threshold_calls threshold window hw A ts tl
    st hp hlen
  exact ⟨h1, isBlacklisted_ops_mono threshold window A ops _ h1⟩

/-- Witness for C7: threshold 1, window 10 ms, two failures at times 0
and 1; the address is blocked and stays blocked through a later cleanup
and an unrelated failure record. -/
theorem blacklist_triggered_witness :
    isBlacklisted (applyOps 1 10 ⟨[], []⟩
      ((([0] : List Int) ++ [1]).map (TrackerOp.record "a"))) "a" = true ∧
    isBlacklisted (applyOps 1 10
      (applyOps 1 10 ⟨[], []⟩
        ((([0] : List Int) ++ [1]).map (TrackerOp.record "a")))
      [TrackerOp.clean 100, TrackerOp.record "b" 100]) "a" = true :=
  blacklist_triggered_and_permanent 1 10 "a" [0] 1 ⟨[], []⟩
    [TrackerOp.clean 100, TrackerOp.record "b" 100]
    (by decide) (by decide) (by decide)

end DuckBuck
